import Mathlib

/-!
# Verification of the supabase-orm query compiler

Shallow embedding of the Go client library's pure query-compilation logic:
the value formatter and filter-condition compiler (`src/utils.go`), the
query-builder state and its compilation into an HTTP request description
(`QueryBuilder.execute`), and the transaction stub (`src/transaction.go`).
Effectful parts (the actual HTTP dispatch) are modelled by the request value
that would be sent and by the decode target that a successful response body
would be unmarshalled into.
-/

namespace SupabaseOrm

/-- Dynamic values passed as `interface{}` to the Go formatter.
`str`, `bool`, `int` (all signed widths, via `reflect.Value.Int`),
`uint` (all unsigned widths, via `reflect.Value.Uint`),
`strList` (a Go `[]string`, whose element *type* is `string`), and
`list` (any other slice or array, formatted by recursion). -/
inductive Value where
  | str (s : String)
  | bool (b : Bool)
  | int (i : Int)
  | uint (n : Nat)
  | strList (ss : List String)
  | list (vs : List Value)

/-- Embeds `fmt.Sprintf("\"%s\"", s)`: wrap a string in double quotes. -/
def quoteStr (s : String) : String := "\"" ++ s ++ "\""

mutual

/-- Embeds `FormatFilterValue` from `src/utils.go`: strings are double
quoted, booleans print `true`/`false`, integers print in base 10, a
`[]string` prints each element quoted inside `{}`, and any other slice
recurses element-wise via the `for i` loop, comma-joined inside `{}`. -/
def FormatFilterValue : Value → String
  | .str s => quoteStr s
  | .bool b => if b then "true" else "false"
  | .int i => toString i
  | .uint n => toString n
  | .strList ss => "\x7b" ++ String.intercalate "," (ss.map quoteStr) ++ "\x7d"
  | .list vs => "\x7b" ++ String.intercalate "," (formatItems vs) ++ "\x7d"

/-- The element loop of the generic-slice branch of `FormatFilterValue`. -/
def formatItems : List Value → List String
  | [] => []
  | v :: vs => FormatFilterValue v :: formatItems vs

end

/-- Embeds `BuildFilterCondition` from `src/utils.go`: the `switch` on the
operator token, producing `<column>=<canonical-op>.<formatted-value>`,
with unknown operators passed through verbatim. -/
def BuildFilterCondition (column operator : String) (value : Value) : String :=
  let formattedValue := FormatFilterValue value
  if operator = "eq" ∨ operator = "=" then column ++ "=eq." ++ formattedValue
  else if operator = "neq" ∨ operator = "!=" ∨ operator = "<>" then
    column ++ "=neq." ++ formattedValue
  else if operator = "gt" ∨ operator = ">" then column ++ "=gt." ++ formattedValue
  else if operator = "gte" ∨ operator = ">=" then column ++ "=gte." ++ formattedValue
  else if operator = "lt" ∨ operator = "<" then column ++ "=lt." ++ formattedValue
  else if operator = "lte" ∨ operator = "<=" then column ++ "=lte." ++ formattedValue
  else if operator = "like" then column ++ "=like." ++ formattedValue
  else if operator = "ilike" then column ++ "=ilike." ++ formattedValue
  else if operator = "in" then column ++ "=in." ++ formattedValue
  else if operator = "is" then column ++ "=is." ++ formattedValue
  else column ++ "=" ++ operator ++ "." ++ formattedValue

/-- The claim's operator table, written from the spec's words: each alias
maps to its canonical PostgREST keyword, the ten canonical keywords map to
themselves, and any other token passes through verbatim. -/
def specCanonicalOp (op : String) : String :=
  if op = "=" then "eq"
  else if op = "!=" ∨ op = "<>" then "neq"
  else if op = ">" then "gt"
  else if op = ">=" then "gte"
  else if op = "<" then "lt"
  else if op = "<=" then "lte"
  else op

mutual

/-- Go's `fmt` default verb `%v`, restricted to the value kinds of the
model: a raw string for strings, `true`/`false` for booleans, base-10 text
for integers, and `[a b c]` (space-joined, square brackets) for slices. -/
def formatV : Value → String
  | .str s => s
  | .bool b => if b then "true" else "false"
  | .int i => toString i
  | .uint n => toString n
  | .strList ss => "[" ++ String.intercalate " " ss ++ "]"
  | .list vs => "[" ++ String.intercalate " " (formatVItems vs) ++ "]"

/-- Element loop of `%v` over a generic slice. -/
def formatVItems : List Value → List String
  | [] => []
  | v :: vs => formatV v :: formatVItems vs

end

/-- HTTP methods the builder dispatch switch recognizes. -/
inductive Method where
  | get | post | patch | delete
deriving DecidableEq, Repr

/-- Embeds `url.Values`: a map from parameter key to the ordered list of values
added under it; absent keys map to `[]`. -/
def Params := String → List String

/-- Fresh `url.Values{}`. -/
def Params.empty : Params := fun _ => []

/-- Embeds `url.Values.Set`: replace the key's value list with a single value. -/
def Params.set (p : Params) (k v : String) : Params :=
  fun k' => if k' = k then [v] else p k'

/-- Embeds `url.Values.Add`: append one value under the key. -/
def Params.add (p : Params) (k v : String) : Params :=
  fun k' => if k' = k then p k' ++ [v] else p k'

/-- Embeds `url.Values.Get`: first value under the key, or `""`. -/
def Params.get (p : Params) (k : String) : String := (p k).headD ""

/-- Request headers: a string map, absent keys map to `none`. -/
def Headers := String → Option String

/-- The empty header map (a nil Go map reads as empty). -/
def Headers.empty : Headers := fun _ => none

/-- Embeds `SetHeader` / Go map assignment: insert or overwrite one key. -/
def Headers.set (h : Headers) (k v : String) : Headers :=
  fun k' => if k' = k then some v else h k'

/-- One entry of the builder's filter list (`type filter` in the source). -/
structure Filter where
  column : String
  operator : String
  value : Value
  isOr : Bool := false
  isComplex : Bool := false

/-- One entry of the order list (`type order`). -/
structure Order where
  column : String
  direction : String

/-- The `rangeQuery` pair. -/
structure RangeQuery where
  start : Int
  stop : Int

/-- One entry of the join list (`type join`). -/
structure Join where
  foreignTable : String
  localColumn : String
  operator : String
  foreignColumn : String

/-- The client state `execute` reads: its base URL (`GetBaseURL`). -/
structure Client where
  baseURL : String

/-- The mutable builder state (`type QueryBuilder` in the source). -/
structure QueryBuilder where
  client : Client
  tableName : String
  method : Method
  selectFields : List String := []
  filters : List Filter := []
  orderFields : List Order := []
  limitValue : Int := 0
  offsetValue : Int := 0
  rangeValue : Option RangeQuery := none
  headers : Headers := Headers.empty
  joins : List Join := []
  rawQuery : String := ""

/-- Embeds `Client.Table`: a fresh builder with method GET. -/
def Client.Table (c : Client) (tableName : String) : QueryBuilder :=
  { client := c, tableName := tableName, method := .get }

/-- Embeds `Select`: overwrites the select list. -/
def QueryBuilder.Select (q : QueryBuilder) (columns : List String) : QueryBuilder :=
  { q with selectFields := columns }

/-- Embeds `Where`: appends a conjunctive filter. -/
def QueryBuilder.Where (q : QueryBuilder) (column operator : String) (value : Value) :
    QueryBuilder :=
  { q with filters := q.filters ++ [{ column, operator, value }] }

/-- Embeds `OrWhere`: appends a filter flagged disjunctive. -/
def QueryBuilder.OrWhere (q : QueryBuilder) (column operator : String) (value : Value) :
    QueryBuilder :=
  { q with filters := q.filters ++ [{ column, operator, value, isOr := true }] }

/-- Embeds `WhereRaw`: appends a complex filter carrying the raw condition text in
the `column` field. -/
def QueryBuilder.WhereRaw (q : QueryBuilder) (condition : String) : QueryBuilder :=
  { q with filters := q.filters ++
      [{ column := condition, operator := "", value := .str "", isComplex := true }] }

/-- Embeds `Order`: appends to the order list. -/
def QueryBuilder.Order (q : QueryBuilder) (column direction : String) : QueryBuilder :=
  { q with orderFields := q.orderFields ++ [{ column, direction }] }

/-- Embeds `Limit`: overwrites the limit. -/
def QueryBuilder.Limit (q : QueryBuilder) (limit : Int) : QueryBuilder :=
  { q with limitValue := limit }

/-- Embeds `Offset`: overwrites the offset. -/
def QueryBuilder.Offset (q : QueryBuilder) (offset : Int) : QueryBuilder :=
  { q with offsetValue := offset }

/-- Embeds `Range`: sets the range pair. -/
def QueryBuilder.Range (q : QueryBuilder) (start stop : Int) : QueryBuilder :=
  { q with rangeValue := some { start, stop } }

/-- Embeds `Header`: inserts/overwrites one custom header. -/
def QueryBuilder.Header (q : QueryBuilder) (key value : String) : QueryBuilder :=
  { q with headers := q.headers.set key value }

/-- Embeds `Join`: appends a join descriptor. -/
def QueryBuilder.Join (q : QueryBuilder)
    (foreignTable localColumn operator foreignColumn : String) : QueryBuilder :=
  { q with joins := q.joins ++ [{ foreignTable, localColumn, operator, foreignColumn }] }

/-- Embeds `InnerJoin`: `Join` with operator `eq`. -/
def QueryBuilder.InnerJoin (q : QueryBuilder)
    (foreignTable localColumn foreignColumn : String) : QueryBuilder :=
  q.Join foreignTable localColumn "eq" foreignColumn

/-- Embeds `Raw`: switches the builder into raw-SQL mode. -/
def QueryBuilder.Raw (q : QueryBuilder) (query : String) : QueryBuilder :=
  { q with rawQuery := query }

/-- The `data` argument flowing through `execute`: `nil`, the caller's
container, or the internally built `sqlRequest{Query: …}` value. -/
inductive ExecData where
  | nil
  | caller
  | sqlReq (query : String)
deriving DecidableEq, Repr

/-- The request `execute` assembles, plus the container a successful
response body would be unmarshalled into (`decodeTarget`). -/
structure Request where
  endpoint : String
  method : Method
  params : Params
  headers : Headers
  body : ExecData
  decodeTarget : ExecData

/-- The filter loop of `execute`: each filter adds one value under the
repeated `and` key — complex filters verbatim, disjunctive ones wrapped
`or(…)`, conjunctive ones bare, the latter two printed with `%v`. -/
def addFilters (p : Params) (fs : List Filter) : Params :=
  fs.foldl (fun p f =>
    if f.isComplex then p.add "and" f.column
    else if f.isOr then
      p.add "and" ("or(" ++ f.column ++ "." ++ f.operator ++ "." ++ formatV f.value ++ ")")
    else
      p.add "and" (f.column ++ "." ++ f.operator ++ "." ++ formatV f.value)) p

/-- The query-parameter assembly of the non-raw branch of `execute`:
select, joins (rewriting the select value), filters under repeated `and`,
order, then limit and offset only when positive. -/
def buildParams (q : QueryBuilder) : Params :=
  let p := Params.empty
  let p := if 0 < q.selectFields.length then
      p.set "select" (String.intercalate "," q.selectFields)
    else p
  let p := if 0 < q.joins.length then
      let joinSelects := q.joins.map (fun j => j.foreignTable ++ "(*)")
      if 0 < q.selectFields.length then
        p.set "select" ((p.get "select") ++ "," ++ String.intercalate "," joinSelects)
      else
        p.set "select" ("*," ++ String.intercalate "," joinSelects)
    else p
  let p := addFilters p q.filters
  let p := if 0 < q.orderFields.length then
      p.set "order" (String.intercalate ","
        (q.orderFields.map (fun o => o.column ++ "." ++ o.direction)))
    else p
  let p := if 0 < q.limitValue then p.set "limit" (toString q.limitValue) else p
  if 0 < q.offsetValue then p.set "offset" (toString q.offsetValue) else p

/-- The non-raw branch's header handling: the builder's custom headers,
plus `Range: <start>-<end>` when a range was set. -/
def buildHeaders (q : QueryBuilder) : Headers :=
  match q.rangeValue with
  | some r => q.headers.set "Range" (toString r.start ++ "-" ++ toString r.stop)
  | none => q.headers

/-- The dispatch switch attaches the body only on POST and PATCH
(`req.SetBody(data).Post/Patch`); GET and DELETE send none. -/
def bodyFor : Method → ExecData → ExecData
  | .post, d => d
  | .patch, d => d
  | _, _ => .nil

/-- After a successful response, `execute` unmarshals the body into `data`
when the method is GET or POST and `data` is non-nil; otherwise nothing is
decoded. -/
def decodeTargetFor (m : Method) (d : ExecData) : ExecData :=
  if m = Method.get ∧ d ≠ ExecData.nil then d
  else if m = Method.post ∧ d ≠ ExecData.nil then d
  else ExecData.nil

/-- Embeds `QueryBuilder.execute` up to the HTTP call: raw-SQL mode swaps
in the RPC endpoint, forces POST, replaces `data` with the internal
`sqlRequest{Query: …}` value and emits no query parameters; normal mode
targets the table endpoint and assembles the query parameters and the
`Range` header. `decodeTarget` records where a successful response body is
unmarshalled. -/
def execute (q : QueryBuilder) (data0 : ExecData) : Request :=
  if q.rawQuery = "" then
    { endpoint := q.client.baseURL ++ "/rest/v1/" ++ q.tableName
      method := q.method
      params := buildParams q
      headers := buildHeaders q
      body := bodyFor q.method data0
      decodeTarget := decodeTargetFor q.method data0 }
  else
    { endpoint := q.client.baseURL ++ "/rest/v1/rpc/execute_sql"
      method := Method.post
      params := Params.empty
      headers := q.headers
      body := bodyFor Method.post (ExecData.sqlReq q.rawQuery)
      decodeTarget := decodeTargetFor Method.post (ExecData.sqlReq q.rawQuery) }

/-- The five terminal operations that reach `execute`. -/
inductive Terminal where
  | get | first | insert | update | delete
deriving DecidableEq, Repr

/-- Dispatch of a terminal call on a builder: `Get(result)` executes as-is
with the caller's container; `First` first sets limit 1; `Insert` forces
POST with the caller's data; `Update` forces PATCH; `Delete` forces DELETE
with nil data. -/
def runTerminal : Terminal → QueryBuilder → Request
  | .get, q => execute q .caller
  | .first, q => execute (q.Limit 1) .caller
  | .insert, q => execute { q with method := .post } .caller
  | .update, q => execute { q with method := .patch } .caller
  | .delete, q => execute { q with method := .delete } .nil

/-- Embeds `QueryBuilder.Count`: sets `Prefer: count=exact`, executes, and
returns `(0, err)` on failure and `(0, nil)` on success — the count is the
literal zero either way. `execErr` is the outcome of the underlying
execution (transport or HTTP error), `contentRange` the response's
`Content-Range` header; the request actually issued is returned too. -/
def CountOp (q : QueryBuilder) (execErr : Option String) (contentRange : String) :
    (Int × Option String) × Request :=
  let q' := q.Header "Prefer" "count=exact"
  let r := execute q' .caller
  match execErr with
  | some e => ((0, some e), r)
  | none =>
    let _ := contentRange
    ((0, none), r)

/-- The value one filter contributes under the `and` key, read off the
loop body in `execute`: complex filters pass their text through, standard
ones use the operator token verbatim and `%v` value formatting, wrapped
`or(…)` when disjunctive. -/
def filterFragment (f : Filter) : String :=
  if f.isComplex then f.column
  else if f.isOr then
    "or(" ++ f.column ++ "." ++ f.operator ++ "." ++ formatV f.value ++ ")"
  else f.column ++ "." ++ f.operator ++ "." ++ formatV f.value

/-- The claim's version of a standard filter's `and` value, written from
the spec's words: the operator mapped to its canonical keyword, the value
formatted by the Value Formatter, wrapped `or(…)` when disjunctive. -/
def specFilterFragment (f : Filter) : String :=
  if f.isOr then
    "or(" ++ f.column ++ "." ++ specCanonicalOp f.operator ++ "." ++
      FormatFilterValue f.value ++ ")"
  else f.column ++ "." ++ specCanonicalOp f.operator ++ "." ++ FormatFilterValue f.value

/-- The transaction stub (`src/transaction.go`): a wrapper holding the
client reference. -/
structure Transaction where
  client : Client

/-- Embeds `Client.Begin`. -/
def Client.Begin (c : Client) : Transaction := { client := c }

/-- Embeds `Transaction.Commit`: returns `nil` — modelled as no error. -/
def Transaction.Commit (_ : Transaction) : Option String := none

/-- Embeds `Transaction.Rollback`: always returns the unsupported-rollback error. -/
def Transaction.Rollback (_ : Transaction) : Option String :=
  some "rollback not supported in the current Supabase REST API"

/-! ## Helper lemmas -/

/-- The generic-slice element loop is exactly `List.map FormatFilterValue`. -/
theorem formatItems_eq_map (vs : List Value) :
    formatItems vs = vs.map FormatFilterValue := by
  induction vs with
  | nil => rfl
  | cons v vs ih => simp [formatItems, ih]

/-- Evaluating a `Set` parameter map. -/
theorem Params.set_eval (p : Params) (k v k' : String) :
    (p.set k v) k' = if k' = k then [v] else p k' := rfl

/-- Evaluating an `Add` parameter map. -/
theorem Params.add_eval (p : Params) (k v k' : String) :
    (p.add k v) k' = if k' = k then p k' ++ [v] else p k' := rfl

/-- One pass of the filter loop appends exactly `filterFragment f`. -/
theorem addFilters_cons (p : Params) (f : Filter) (fs : List Filter) :
    addFilters p (f :: fs) = addFilters (p.add "and" (filterFragment f)) fs := by
  unfold addFilters filterFragment
  cases hc : f.isComplex <;> cases ho : f.isOr <;> simp [hc, ho]

/-- The filter loop appends one `and` value per filter, in order. -/
theorem addFilters_and (fs : List Filter) (p : Params) :
    addFilters p fs "and" = p "and" ++ fs.map filterFragment := by
  induction fs generalizing p with
  | nil => simp [addFilters]
  | cons f fs ih =>
    rw [addFilters_cons, ih]
    simp [Params.add_eval]

/-- The filter loop touches no key other than `and`. -/
theorem addFilters_other (fs : List Filter) (p : Params) (k : String) (hk : k ≠ "and") :
    addFilters p fs k = p k := by
  induction fs generalizing p with
  | nil => simp [addFilters]
  | cons f fs ih =>
    rw [addFilters_cons, ih]
    simp [Params.add_eval, hk]

/-- In normal mode `execute` uses the assembled query parameters. -/
theorem execute_params_not_raw (q : QueryBuilder) (d : ExecData) (h : q.rawQuery = "") :
    (execute q d).params = buildParams q := by
  simp [execute, h]

/-- In raw-SQL mode `execute` targets the RPC endpoint with POST, an empty
parameter set, the internal SQL body, and decodes into that body. -/
theorem execute_raw (q : QueryBuilder) (d : ExecData) (h : q.rawQuery ≠ "") :
    execute q d =
      { endpoint := q.client.baseURL ++ "/rest/v1/rpc/execute_sql"
        method := Method.post
        params := Params.empty
        headers := q.headers
        body := ExecData.sqlReq q.rawQuery
        decodeTarget := ExecData.sqlReq q.rawQuery } := by
  simp [execute, h, bodyFor, decodeTargetFor]

/-- Evaluating the assembled parameters at `limit`. -/
theorem buildParams_limit (q : QueryBuilder) :
    buildParams q "limit" = if 0 < q.limitValue then [toString q.limitValue] else [] := by
  simp only [buildParams]
  split_ifs <;> simp_all [Params.set_eval, addFilters_other, Params.empty]

/-- Evaluating the assembled parameters at `offset`. -/
theorem buildParams_offset (q : QueryBuilder) :
    buildParams q "offset" = if 0 < q.offsetValue then [toString q.offsetValue] else [] := by
  simp only [buildParams]
  split_ifs <;> simp_all [Params.set_eval, addFilters_other, Params.empty]

/-- Evaluating the assembled parameters at `and`. -/
theorem buildParams_and (q : QueryBuilder) :
    buildParams q "and" = q.filters.map filterFragment := by
  simp only [buildParams]
  split_ifs <;> simp_all [Params.set_eval, addFilters_and, Params.empty]

/-- Evaluating the assembled parameters at `select` when joins exist. -/
theorem buildParams_select_joins (q : QueryBuilder) (hj : q.joins ≠ []) :
    buildParams q "select" =
      [(if q.selectFields ≠ [] then String.intercalate "," q.selectFields else "*") ++
        "," ++ String.intercalate "," (q.joins.map (fun j => j.foreignTable ++ "(*)"))] := by
  have hj' : 0 < q.joins.length := List.length_pos.mpr hj
  simp only [buildParams]
  split_ifs <;>
    simp_all [Params.set_eval, Params.get, addFilters_other, Params.empty,
      List.length_pos, String.append_assoc]

/-! ## Claim theorems -/

/-- C2: `BuildFilterCondition` maps every alias operator to its canonical
PostgREST keyword, maps the ten canonical keywords to themselves, passes
any other operator token through verbatim, and returns
`<column>=<op>.<formatted-value>` with the value formatted by
`FormatFilterValue`. -/
theorem buildFilterCondition_canonical (column operator : String) (value : Value) :
    BuildFilterCondition column operator value =
      column ++ "=" ++ specCanonicalOp operator ++ "." ++ FormatFilterValue value := by
  by_cases h1 : operator = "eq"
  · subst h1; simp [BuildFilterCondition, specCanonicalOp, String.append_assoc]
  by_cases h2 : operator = "="
  · subst h2; simp [BuildFilterCondition, specCanonicalOp, String.append_assoc]
  by_cases h3 : operator = "neq"
  · subst h3; simp [BuildFilterCondition, specCanonicalOp, String.append_assoc]
  by_cases h4 : operator = "!="
  · subst h4; simp [BuildFilterCondition, specCanonicalOp, String.append_assoc]
  by_cases h5 : operator = "<>"
  · subst h5; simp [BuildFilterCondition, specCanonicalOp, String.append_assoc]
  by_cases h6 : operator = "gt"
  · subst h6; simp [BuildFilterCondition, specCanonicalOp, String.append_assoc]
  by_cases h7 : operator = ">"
  · subst h7; simp [BuildFilterCondition, specCanonicalOp, String.append_assoc]
  by_cases h8 : operator = "gte"
  · subst h8; simp [BuildFilterCondition, specCanonicalOp, String.append_assoc]
  by_cases h9 : operator = ">="
  · subst h9; simp [BuildFilterCondition, specCanonicalOp, String.append_assoc]
  by_cases h10 : operator = "lt"
  · subst h10; simp [BuildFilterCondition, specCanonicalOp, String.append_assoc]
  by_cases h11 : operator = "<"
  · subst h11; simp [BuildFilterCondition, specCanonicalOp, String.append_assoc]
  by_cases h12 : operator = "lte"
  · subst h12; simp [BuildFilterCondition, specCanonicalOp, String.append_assoc]
  by_cases h13 : operator = "<="
  · subst h13; simp [BuildFilterCondition, specCanonicalOp, String.append_assoc]
  by_cases h14 : operator = "like"
  · subst h14; simp [BuildFilterCondition, specCanonicalOp, String.append_assoc]
  by_cases h15 : operator = "ilike"
  · subst h15; simp [BuildFilterCondition, specCanonicalOp, String.append_assoc]
  by_cases h16 : operator = "in"
  · subst h16; simp [BuildFilterCondition, specCanonicalOp, String.append_assoc]
  by_cases h17 : operator = "is"
  · subst h17; simp [BuildFilterCondition, specCanonicalOp, String.append_assoc]
  simp [BuildFilterCondition, specCanonicalOp, h1, h2, h3, h4, h5, h6, h7, h8, h9,
    h10, h11, h12, h13, h14, h15, h16, h17, String.append_assoc]

/-- C4: `FormatFilterValue` double-quotes strings, prints booleans as
`true`/`false`, prints integers (signed and unsigned) in base 10, quotes
every element of a string collection inside `{…}`, formats any other
collection recursively with comma joining and no trailing comma, formats
every empty collection to `{}`, and the string-collection special case
agrees with the recursive path. -/
theorem formatFilterValue_spec :
    (∀ s, FormatFilterValue (.str s) = "\"" ++ s ++ "\"") ∧
    (FormatFilterValue (.bool true) = "true" ∧ FormatFilterValue (.bool false) = "false") ∧
    (∀ i : Int, FormatFilterValue (.int i) = toString i) ∧
    (∀ n : Nat, FormatFilterValue (.uint n) = toString n) ∧
    (∀ ss, FormatFilterValue (.strList ss) =
      "\x7b" ++ String.intercalate "," (ss.map (fun s => "\"" ++ s ++ "\"")) ++ "\x7d") ∧
    (∀ vs, FormatFilterValue (.list vs) =
      "\x7b" ++ String.intercalate "," (vs.map FormatFilterValue) ++ "\x7d") ∧
    (∀ ss, FormatFilterValue (.strList ss) = FormatFilterValue (.list (ss.map .str))) ∧
    (FormatFilterValue (.strList []) = "\x7b\x7d" ∧ FormatFilterValue (.list []) = "\x7b\x7d") := by
  refine ⟨fun s => rfl, ⟨rfl, rfl⟩, fun i => rfl, fun n => rfl,
    fun ss => rfl, fun vs => ?_, fun ss => ?_, rfl, rfl⟩
  · rw [FormatFilterValue, formatItems_eq_map]
  · rw [FormatFilterValue, FormatFilterValue, formatItems_eq_map]
    simp [List.map_map, quoteStr]
    rfl

/-- C1 (counterexample): for the standard filter `Where("c","=","x")` the
value added under the `and` parameter is `c.=.x` — the operator is not
canonicalized and the string is not double-quoted — which differs from the
claimed §4.2-compiled fragment `c.eq."x"`. -/
theorem standard_filter_claim_counterexample :
    ((runTerminal Terminal.get
        ((Client.Table { baseURL := "http://h" } "t").Where "c" "=" (Value.str "x"))).params
      "and" = ["c.=.x"]) ∧
    (specFilterFragment { column := "c", operator := "=", value := Value.str "x" } =
      "c.eq.\"x\"") ∧
    ((runTerminal Terminal.get
        ((Client.Table { baseURL := "http://h" } "t").Where "c" "=" (Value.str "x"))).params
      "and" ≠
      [specFilterFragment { column := "c", operator := "=", value := Value.str "x" }]) := by
  refine ⟨?_, ?_, ?_⟩ <;> decide

/-- C1 (amended): in normal mode the repeated `and` parameter holds one
value per filter in order: complex filters verbatim, and each standard
filter as `<column>.<op>.<value>` — or `or(<column>.<op>.<value>)` when
added via OrWhere — with the operator token used verbatim (not mapped to a
canonical keyword) and the value printed with Go's `%v` default formatting
(strings unquoted), not by the Value Formatter. -/
theorem and_params_amended (q : QueryBuilder) (d : ExecData) (h : q.rawQuery = "") :
    (execute q d).params "and" = q.filters.map filterFragment := by
  rw [execute_params_not_raw q d h, buildParams_and]

/-- C1 witness: a conjunctive and a disjunctive filter compile to
`a.>.5` and `or(b.eq.y)` under `and`. -/
theorem and_params_amended_witness :
    (execute
        (((Client.Table { baseURL := "http://h" } "t").Where "a" ">"
          (Value.int 5)).OrWhere "b" "eq" (Value.str "y")) ExecData.caller).params
      "and" = ["a.>.5", "or(b.eq.y)"] := by
  rw [and_params_amended _ _ rfl]
  decide

/-- C3: with a non-empty raw query, every terminal execution targets
`<base>/rest/v1/rpc/execute_sql`, uses POST regardless of the terminal
operation, sends the `{query: sqlText}` body, emits no query-string
parameters, and leaves the headers as configured. -/
theorem raw_sql_execution (t : Terminal) (q : QueryBuilder) (h : q.rawQuery ≠ "") :
    (runTerminal t q).endpoint = q.client.baseURL ++ "/rest/v1/rpc/execute_sql" ∧
    (runTerminal t q).method = Method.post ∧
    (runTerminal t q).body = ExecData.sqlReq q.rawQuery ∧
    (∀ k, (runTerminal t q).params k = []) ∧
    (runTerminal t q).headers = q.headers := by
  cases t <;> simp [runTerminal, execute_raw, h, QueryBuilder.Limit, Params.empty]

/-- C3 witness: `Delete` on a raw builder with select state still issues
POST to the RPC endpoint with the SQL body and no parameters. -/
theorem raw_sql_execution_witness :
    ((runTerminal Terminal.delete
        (((Client.Table { baseURL := "http://h" } "t").Select ["a"]).Raw
          "SELECT 1")).method = Method.post) ∧
    ((runTerminal Terminal.delete
        (((Client.Table { baseURL := "http://h" } "t").Select ["a"]).Raw
          "SELECT 1")).params "select" = []) ∧
    ((runTerminal Terminal.delete
        (((Client.Table { baseURL := "http://h" } "t").Select ["a"]).Raw
          "SELECT 1")).body = ExecData.sqlReq "SELECT 1") := by
  obtain ⟨-, hm, hb, hp, -⟩ := raw_sql_execution Terminal.delete
    (((Client.Table { baseURL := "http://h" } "t").Select ["a"]).Raw "SELECT 1")
    (by decide)
  exact ⟨hm, hp "select", hb⟩

/-- C6: with a non-empty join list, the compiled `select` parameter is the
explicitly selected columns (comma-joined, or `*` when none were set)
followed by one `<foreignTable>(*)` fragment per join in insertion
order. -/
theorem join_select_param (q : QueryBuilder) (d : ExecData)
    (hraw : q.rawQuery = "") (hj : q.joins ≠ []) :
    (execute q d).params "select" =
      [(if q.selectFields ≠ [] then String.intercalate "," q.selectFields else "*") ++
        "," ++ String.intercalate "," (q.joins.map (fun j => j.foreignTable ++ "(*)"))] := by
  rw [execute_params_not_raw q d hraw, buildParams_select_joins q hj]

/-- C6 witness: two chained joins appear after the selected columns in
insertion order. -/
theorem join_select_param_witness :
    (execute
        ((((Client.Table { baseURL := "http://h" } "users").Select
          ["id", "name"]).InnerJoin "posts" "id" "user_id").InnerJoin
          "comments" "id" "user_id") ExecData.caller).params "select" =
      ["id,name,posts(*),comments(*)"] := by
  rw [join_select_param _ ExecData.caller rfl
    (by simp [Client.Table, QueryBuilder.Select, QueryBuilder.InnerJoin, QueryBuilder.Join])]
  decide

/-- C7: in normal mode the `limit` parameter is emitted if and only if the
stored limit is strictly positive, and likewise for `offset`; a zero (or
negative) value emits nothing, so unset and zero compile identically. -/
theorem limit_offset_emission (q : QueryBuilder) (d : ExecData) (h : q.rawQuery = "") :
    ((execute q d).params "limit" =
      if 0 < q.limitValue then [toString q.limitValue] else []) ∧
    ((execute q d).params "offset" =
      if 0 < q.offsetValue then [toString q.offsetValue] else []) ∧
    ((execute q d).params "limit" ≠ [] ↔ 0 < q.limitValue) ∧
    ((execute q d).params "offset" ≠ [] ↔ 0 < q.offsetValue) := by
  rw [execute_params_not_raw q d h]
  refine ⟨buildParams_limit q, buildParams_offset q, ?_, ?_⟩
  · rw [buildParams_limit]; split_ifs with hh <;> simp [hh]
  · rw [buildParams_offset]; split_ifs with hh <;> simp [hh]

/-- C7 witness: limit 5 with default offset emits `limit=5` and no
offset parameter. -/
theorem limit_offset_emission_witness :
    ((execute ((Client.Table { baseURL := "http://h" } "t").Limit 5)
        ExecData.caller).params "limit" = ["5"]) ∧
    ((execute ((Client.Table { baseURL := "http://h" } "t").Limit 5)
        ExecData.caller).params "offset" = []) := by
  obtain ⟨hl, ho, -, -⟩ :=
    limit_offset_emission ((Client.Table { baseURL := "http://h" } "t").Limit 5)
      ExecData.caller rfl
  exact ⟨by rw [hl]; decide, by rw [ho]; decide⟩

/-- C8: `Count` sets the `Prefer: count=exact` header on the request and
returns zero both on success and on failure, passing the execution error
through — the result never depends on the response's `Content-Range`. -/
theorem count_always_zero (q : QueryBuilder) (execErr : Option String)
    (contentRange : String) :
    (CountOp q execErr contentRange).1.1 = 0 ∧
    (CountOp q execErr contentRange).1.2 = execErr ∧
    (CountOp q execErr contentRange).2.headers "Prefer" = some "count=exact" := by
  have hh : (execute (q.Header "Prefer" "count=exact") ExecData.caller).headers
      "Prefer" = some "count=exact" := by
    by_cases hr : q.rawQuery = ""
    · cases hrv : q.rangeValue <;>
        simp [execute, QueryBuilder.Header, hr, buildHeaders, hrv, Headers.set]
    · simp [execute, QueryBuilder.Header, hr, Headers.set]
  cases execErr <;> simp [CountOp, hh]

/-- C9: `Commit` always returns no error and `Rollback` always returns the
unsupported-rollback error, for every transaction value. -/
theorem transaction_stub (t : Transaction) :
    t.Commit = none ∧
    t.Rollback = some "rollback not supported in the current Supabase REST API" ∧
    t.Rollback ≠ none := by
  refine ⟨rfl, rfl, ?_⟩
  simp [Transaction.Rollback]

/-- C10: with a non-empty raw query, the caller-supplied data argument is
replaced by the internal `{query: sqlText}` value before dispatch, so a
successful response is decoded into that internal value for every terminal
operation and never into the caller's container. -/
theorem raw_decode_internal (t : Terminal) (q : QueryBuilder) (h : q.rawQuery ≠ "") :
    (runTerminal t q).decodeTarget = ExecData.sqlReq q.rawQuery ∧
    (runTerminal t q).decodeTarget ≠ ExecData.caller := by
  cases t <;> simp [runTerminal, execute_raw, h, QueryBuilder.Limit]

/-- C10 witness: a successful raw `Get` decodes into the internal SQL
request value, not the caller's container. -/
theorem raw_decode_internal_witness :
    ((runTerminal Terminal.get
        ((Client.Table { baseURL := "http://h" } "").Raw "SELECT 2")).decodeTarget =
      ExecData.sqlReq "SELECT 2") ∧
    ((runTerminal Terminal.get
        ((Client.Table { baseURL := "http://h" } "").Raw "SELECT 2")).decodeTarget ≠
      ExecData.caller) :=
  raw_decode_internal Terminal.get
    ((Client.Table { baseURL := "http://h" } "").Raw "SELECT 2") (by decide)

end SupabaseOrm
